import Mathlib

/-!
Verification of the ppfl browser dashboard (React/TypeScript client).

The development shallowly embeds the state-update logic of the four
components that the claims concern:

* `RealtimeMetrics` (src/client/src/components/RealtimeMetrics.tsx):
  one-shot `/api/status` snapshot merge and the `metrics_update` push handler;
* `AnomalyList` (src/unnamed/part_000): the `anomaly_detected` push handler
  and the 5-element display truncation;
* `PrivacyControls` (src/unnamed/part_000): the budget gauge derivation;
* `AnomalyAnalysis` (src/unnamed/part_000): `onDrop` validation, the
  `uploadFile` polling loop, and the bounding-box overlay scaling.

JavaScript numbers are idealised as rationals (`ℚ`); `Math.round x` is
`⌊x + 1/2⌋`, its behaviour on all non-exceptional inputs.  Untyped payloads
crossing the push channel are modelled by a small JSON value type, since the
handlers perform no runtime validation.  Timer-driven polling is modelled by
folding the poll-callback body over the sequence of fetch outcomes the loop
would observe, with the 60-second `setTimeout` cap as a bound on how many
outcomes are consumed and an `active` flag standing for "the interval has
not been cleared".
-/

namespace Ppfl

/-- Untyped JSON values, the runtime content of `message.data` on the push
channel.  The TypeScript annotations promise shapes, but nothing checks them
at runtime, so handlers are modelled over raw JSON. -/
inductive Json where
  | null : Json
  | bool (b : Bool) : Json
  | num (q : ℚ) : Json
  | str (s : String) : Json
  | arr (xs : List Json) : Json
  | obj (fields : List (String × Json)) : Json

/-- A push-channel envelope `{type, data}` as delivered by `useWebSocket`. -/
structure PushMessage where
  type : String
  data : Json

/-- One firing of the `lastMessage` effect in `RealtimeMetrics`
(RealtimeMetrics.tsx): on a `metrics_update` message the whole state becomes
`message.data` (`setMetrics(lastMessage.data)`); any other message leaves
the state alone. -/
def handleMetricsMessage (st : Json) (m : PushMessage) : Json :=
  if m.type = "metrics_update" then m.data else st

/-- One firing of the `lastMessage` effect in `AnomalyList`
(src/unnamed/part_000): an `anomaly_detected` message is prepended to the
first 9 retained entries (`[lastMessage.data, ...prev.slice(0, 9)]`); any
other message leaves the list alone. -/
def handleAnomalyMessage (st : List Json) (m : PushMessage) : List Json :=
  if m.type = "anomaly_detected" then m.data :: st.take 9 else st

/-- The anomalies actually rendered by `AnomalyList`:
`anomalies.slice(0, 5)`. -/
def displayedAnomalies (st : List Json) : List Json :=
  st.take 5

/-! ## RealtimeMetrics: the `/api/status` snapshot merge -/

/-- The `Metrics` local state of `RealtimeMetrics`. -/
structure Metrics where
  activeAnomalies : ℚ
  flProgress : ℚ
  privacyBudget : ℚ
  modelAccuracy : ℚ
  totalClients : ℚ
  onlineClients : ℚ

/-- The leaves of the `/api/status` snapshot that the merge reads, each
optional because the source guards every access with `?.` (a missing parent
object and a missing leaf both yield `undefined`). -/
structure StatusSnapshot where
  devicesTotal : Option ℚ
  devicesOnline : Option ℚ
  performanceAccuracy : Option ℚ
  securityRecentAnomalies : Option ℚ
  securityPrivacyBudgetRemaining : Option ℚ
  flCurrentRound : Option ℚ

/-- JavaScript `v || d` on an optional number: `undefined` and `0` are falsy
and select the default (`NaN`, also falsy, has no rational counterpart). -/
def jsOrNum (v : Option ℚ) (d : ℚ) : ℚ :=
  match v with
  | some x => if x = 0 then d else x
  | none => d

/-- JavaScript truthiness of an optional number (`v ? _ : _`). -/
def jsTruthyNum (v : Option ℚ) : Bool :=
  match v with
  | some x => decide (x ≠ 0)
  | none => false

/-- The `initialMetrics` effect of `RealtimeMetrics`: spread the previous
state, then overwrite the six fields with falsy-coalescing defaults
(`initialMetrics.performance?.accuracy || 0.947` etc.) and the
`fl?.currentRound ? 85 : 0` ternary. -/
def applySnapshot (prev : Metrics) (s : StatusSnapshot) : Metrics :=
  { prev with
    totalClients := jsOrNum s.devicesTotal 0
    onlineClients := jsOrNum s.devicesOnline 0
    modelAccuracy := jsOrNum s.performanceAccuracy (947 / 1000)
    activeAnomalies := jsOrNum s.securityRecentAnomalies 0
    privacyBudget := jsOrNum s.securityPrivacyBudgetRemaining 6
    flProgress := if jsTruthyNum s.flCurrentRound then 85 else 0 }

/-! ## PrivacyControls: the budget gauge -/

/-- An entry of the `/api/privacy/budgets` response. -/
structure PrivacyMetrics where
  epsilon : ℚ
  delta : ℚ
  remainingBudget : ℚ

/-- JavaScript `Math.round`. -/
def jsRound (x : ℚ) : ℤ :=
  ⌊x + 1 / 2⌋

/-- What the privacy-budget card shows: the bar percentage, the numeric
budget over its ceiling, and the δ line.  String rendering (`toFixed(1)`,
`toExponential(0)`) is presentational and kept as the underlying numbers. -/
structure BudgetDisplay where
  percentage : ℤ
  shownBudget : ℚ
  shownCeiling : ℚ
  shownDelta : ℚ

/-- The derivation in `PrivacyControls`: `latestMetrics = privacyMetrics?.[0]`;
with a latest entry the percentage is
`Math.round((latestMetrics.remainingBudget / 6.0) * 100)` and the card shows
`remainingBudget / 6.0` and `delta`; with no entry (fetch unresolved or empty
list) the fixed placeholder `70%`, `4.2 / 6.0`, `δ = 1e-5` is shown. -/
def privacyDisplay (fetched : Option (List PrivacyMetrics)) : BudgetDisplay :=
  match fetched.bind List.head? with
  | some m =>
      { percentage := jsRound (m.remainingBudget / 6 * 100)
        shownBudget := m.remainingBudget
        shownCeiling := 6
        shownDelta := m.delta }
  | none =>
      { percentage := 70
        shownBudget := 42 / 10
        shownCeiling := 6
        shownDelta := 1 / 100000 }

/-! ## AnomalyAnalysis: onDrop validation -/

/-- The parts of a browser `File` object the drop handler reads. -/
structure JsFile where
  name : String
  size : Nat
  type : String
deriving DecidableEq

/-- The `allowedTypes` list in `onDrop`: 4 image and 4 video MIME types. -/
def allowedTypes : List String :=
  ["image/jpeg", "image/jpg", "image/png", "image/gif",
   "video/mp4", "video/avi", "video/mov", "video/mkv"]

/-- The `onDrop` size limit: `50 * 1024 * 1024` bytes. -/
def fileSizeLimit : Nat := 50 * 1024 * 1024

/-- What `onDrop` does with one dropped file. -/
inductive DropOutcome where
  | rejectedSize : DropOutcome
  | rejectedType : DropOutcome
  | upload (f : JsFile) : DropOutcome
deriving DecidableEq

/-- The per-file body of `onDrop`: reject oversize files, then files with a
MIME type outside `allowedTypes`, otherwise call `uploadFile(file)`. -/
def handleDroppedFile (f : JsFile) : DropOutcome :=
  if fileSizeLimit < f.size then DropOutcome.rejectedSize
  else if f.type ∉ allowedTypes then DropOutcome.rejectedType
  else DropOutcome.upload f

/-- Both rejection branches raise a toast with `variant: "destructive"`;
the upload branch raises none at drop time. -/
def isDestructiveToast : DropOutcome → Bool
  | DropOutcome.rejectedSize => true
  | DropOutcome.rejectedType => true
  | DropOutcome.upload _ => false

/-! ## AnomalyAnalysis: bounding-box overlay scaling -/

/-- One entry of `analysisResults.bounding_boxes`. -/
structure BoundingBox where
  class_name : String
  confidence : ℚ
  bbox : ℚ × ℚ × ℚ × ℚ
  is_anomaly : Bool
  priority : String

/-- `containerWidth` in the overlay renderer. -/
def containerWidth : ℚ := 512

/-- `containerHeight` in the overlay renderer. -/
def containerHeight : ℚ := 256

/-- `scaleX = containerWidth / 640`: the horizontal scale against the
assumed 640-pixel source width. -/
def scaleX : ℚ := containerWidth / 640

/-- `scaleY = containerHeight / 480`: the vertical scale against the
assumed 480-pixel source height. -/
def scaleY : ℚ := containerHeight / 480

/-- The inline style of one overlay box. -/
structure OverlayRect where
  left : ℚ
  top : ℚ
  width : ℚ
  height : ℚ

/-- The overlay geometry computed per bounding box in `AnomalyAnalysis`:
`left = x1 * scaleX`, `top = y1 * scaleY`, `width = (x2 - x1) * scaleX`,
`height = (y2 - y1) * scaleY`.  Note the function receives no information
about the uploaded image's real dimensions. -/
def overlayRect (b : BoundingBox) : OverlayRect :=
  { left := b.bbox.1 * scaleX
    top := b.bbox.2.1 * scaleY
    width := (b.bbox.2.2.1 - b.bbox.1) * scaleX
    height := (b.bbox.2.2.2 - b.bbox.2.1) * scaleY }

/-! ## AnomalyAnalysis: the uploadFile polling loop -/

/-- `status ∈ {uploaded, processing, analyzed, error}` of an uploaded file. -/
inductive FileStatus where
  | uploaded : FileStatus
  | processing : FileStatus
  | analyzed : FileStatus
  | fileError : FileStatus
deriving DecidableEq

/-- `severity` of an analysis result. -/
inductive Severity where
  | low : Severity
  | medium : Severity
  | high : Severity
  | critical : Severity
  | uncertain : Severity
deriving DecidableEq

/-- `recommendedAction` of an analysis result. -/
inductive RecommendedAction where
  | manual_review : RecommendedAction
  | alert : RecommendedAction
  | noAction : RecommendedAction
deriving DecidableEq

/-- `metadata.privacy_impact` of an analysis result. -/
structure PrivacyImpact where
  epsilon : ℚ
  delta : ℚ

/-- `metadata` of an analysis result. -/
structure ResultMetadata where
  fileType : String
  analysisMethod : String
  source : String
  timestamp : String
  confidenceThreshold : Option ℚ
  privacy_impact : PrivacyImpact

/-- The `AnomalyResult` payload attached to an analyzed upload. -/
structure AnomalyResult where
  anomalyDetected : Bool
  anomalyType : String
  severity : Severity
  confidence : ℚ
  description : String
  modelUsed : String
  processingTime : ℚ
  recommendedAction : Option RecommendedAction
  bounding_boxes : Option (List BoundingBox)
  metadata : ResultMetadata

/-- An `UploadedFile` record as returned by `/api/upload` and `/api/uploads`. -/
structure UploadedFile where
  id : String
  filename : String
  originalName : String
  mimeType : String
  size : Nat
  status : FileStatus
  analysisResults : Option AnomalyResult
  uploadedAt : String
  imageUrl : Option String

/-- The component state a poll iteration can touch, plus an `active` flag
standing for "the interval handle has not been cleared". -/
structure PollState where
  uploadedFiles : List UploadedFile
  selectedResult : Option AnomalyResult
  active : Bool

/-- What one poll iteration's `fetch('/api/uploads')` produced: a parsed
file list, or a rejection (network error / JSON failure). -/
inductive FetchOutcome where
  | ok (files : List UploadedFile) : FetchOutcome
  | failed : FetchOutcome

/-- One firing of the `setInterval` callback in `uploadFile`, polling for
file `fid`.  A cleared interval (`active = false`) does nothing.  On a fetch
rejection the `catch` clears the interval and changes no other state.  On a
successful fetch, the record matching `fid` is looked up; if it is found
with a status other than `uploaded`/`processing`, the matching entry of
`uploadedFiles` is replaced, `selectedResult` is set when the status is
`analyzed` with `analysisResults` present, and the interval is cleared;
otherwise nothing changes. -/
def pollStep (fid : String) (st : PollState) (r : FetchOutcome) : PollState :=
  if st.active then
    match r with
    | FetchOutcome.failed => { st with active := false }
    | FetchOutcome.ok files =>
        match files.find? (fun f => f.id == fid) with
        | none => st
        | some currentFile =>
            if currentFile.status ≠ FileStatus.uploaded ∧
                currentFile.status ≠ FileStatus.processing then
              { uploadedFiles :=
                  st.uploadedFiles.map
                    (fun f => if f.id == fid then currentFile else f)
                selectedResult :=
                  if currentFile.status = FileStatus.analyzed ∧
                      currentFile.analysisResults.isSome then
                    currentFile.analysisResults
                  else st.selectedResult
                active := false }
            else st
  else st

/-- The `setInterval` period of the poll loop, in milliseconds. -/
def intervalMs : Nat := 2000

/-- The `setTimeout` deadline that clears the interval, in milliseconds. -/
def timeoutMs : Nat := 60000

/-- The number of interval firings that fit before the 60-second timeout
clears the handle. -/
def maxPolls : Nat := timeoutMs / intervalMs

/-- The time (ms after upload) at which poll number `k` (0-based) fires. -/
def pollFireTime (k : Nat) : Nat := intervalMs * (k + 1)

/-- The whole poll loop for file `fid`: the callback body folded over the
fetch outcomes it would observe, of which at most `maxPolls` occur before
the timeout clears the interval. -/
def pollRun (fid : String) (st : PollState) (rs : List FetchOutcome) : PollState :=
  (rs.take maxPolls).foldl (pollStep fid) st

/-! ## Sample data for concrete witnesses -/

/-- A concrete analysis result. -/
def sampleResult : AnomalyResult :=
  { anomalyDetected := true
    anomalyType := "intrusion"
    severity := Severity.high
    confidence := 9 / 10
    description := "person in restricted zone"
    modelUsed := "timesformer-yolo-fusion"
    processingTime := 120
    recommendedAction := some RecommendedAction.manual_review
    bounding_boxes := none
    metadata :=
      { fileType := "image"
        analysisMethod := "fusion"
        source := "yolo"
        timestamp := "2024-01-01T00:00:00Z"
        confidenceThreshold := none
        privacy_impact := { epsilon := 1 / 2, delta := 1 / 100000 } } }

/-- A concrete freshly-uploaded record for file `"f1"`. -/
def sampleUploaded : UploadedFile :=
  { id := "f1"
    filename := "f1.png"
    originalName := "cam.png"
    mimeType := "image/png"
    size := 1000
    status := FileStatus.uploaded
    analysisResults := none
    uploadedAt := "2024-01-01T00:00:00Z"
    imageUrl := some "/uploads/f1.png" }

/-- The same record after analysis completed. -/
def sampleAnalyzed : UploadedFile :=
  { sampleUploaded with
    status := FileStatus.analyzed
    analysisResults := some sampleResult }

/-- The same record while still processing. -/
def sampleProcessing : UploadedFile :=
  { sampleUploaded with status := FileStatus.processing }

/-- The poll-loop state right after the upload response was appended. -/
def sampleState : PollState :=
  { uploadedFiles := [sampleUploaded]
    selectedResult := none
    active := true }

/-! ## Helper lemmas about the poll loop -/

/-- A cleared interval never fires: `pollStep` on an inactive state is the
identity. -/
theorem pollStep_inactive (fid : String) (st : PollState) (r : FetchOutcome)
    (h : st.active = false) : pollStep fid st r = st := by
  unfold pollStep
  rw [h]
  simp

/-- Folding the callback over any outcome list from an inactive state
changes nothing. -/
theorem foldl_pollStep_inactive (fid : String) (st : PollState)
    (rs : List FetchOutcome) (h : st.active = false) :
    rs.foldl (pollStep fid) st = st := by
  induction rs with
  | nil => rfl
  | cons r rs ih =>
      rw [List.foldl_cons, pollStep_inactive fid st r h, ih]

/-- The poll step's result is always either the unchanged state or a state
whose interval has been cleared. -/
theorem pollStep_cases (fid : String) (st : PollState) (r : FetchOutcome) :
    pollStep fid st r = st ∨ (pollStep fid st r).active = false := by
  by_cases hact : st.active
  · cases r with
    | failed => exact Or.inr (by simp [pollStep, hact])
    | ok files =>
        cases hfind : List.find? (fun f => f.id == fid) files with
        | none => exact Or.inl (by simp [pollStep, hact, hfind])
        | some currentFile =>
            by_cases hnp : currentFile.status ≠ FileStatus.uploaded ∧
                currentFile.status ≠ FileStatus.processing
            · exact Or.inr (by simp [pollStep, hact, hfind, hnp.1, hnp.2])
            · exact Or.inl (by simp [pollStep, hact, hfind, hnp])
  · exact Or.inl (pollStep_inactive fid st r (by simpa using hact))

/-- If a fold of the callback changed `uploadedFiles`, its final state has a
cleared interval. -/
theorem foldl_pollStep_change_inactive (fid : String) :
    ∀ (rs : List FetchOutcome) (st : PollState),
      (rs.foldl (pollStep fid) st).uploadedFiles ≠ st.uploadedFiles →
      (rs.foldl (pollStep fid) st).active = false := by
  intro rs
  induction rs with
  | nil => intro st h; exact absurd rfl h
  | cons r rs ih =>
      intro st h
      rw [List.foldl_cons] at h ⊢
      rcases pollStep_cases fid st r with heq | hina
      · rw [heq] at h ⊢
        exact ih st h
      · by_cases hch :
          (rs.foldl (pollStep fid) (pollStep fid st r)).uploadedFiles =
            (pollStep fid st r).uploadedFiles
        · rw [foldl_pollStep_inactive fid _ rs hina]
          exact hina
        · exact ih (pollStep fid st r) hch

/-! ## Claim theorems -/

/-- C2.  On an `anomaly_detected` push the new retained list is
`[message.data]` followed by the first 9 previous entries; hence it has
length at most 10, grows by exactly one while the previous list is shorter
than 10, and the rendered feed shows at most the first 5 retained
anomalies. -/
theorem anomaly_push_prepend_cap (st : List Json) (m : PushMessage)
    (hty : m.type = "anomaly_detected") :
    handleAnomalyMessage st m = m.data :: st.take 9 ∧
    (handleAnomalyMessage st m).length ≤ 10 ∧
    (st.length < 10 →
      (handleAnomalyMessage st m).length = st.length + 1) ∧
    (displayedAnomalies (handleAnomalyMessage st m)).length ≤ 5 ∧
    displayedAnomalies (handleAnomalyMessage st m) =
      (handleAnomalyMessage st m).take 5 := by
  unfold handleAnomalyMessage displayedAnomalies
  rw [if_pos hty]
  refine ⟨rfl, ?_, ?_, ?_, rfl⟩
  · simp only [List.length_cons, List.length_take]
    omega
  · intro hlt
    simp only [List.length_cons, List.length_take]
    omega
  · simp only [List.length_take]
    omega

/-- Witness for C2 at a concrete message and a 3-element prior list. -/
theorem anomaly_push_prepend_cap_witness :
    handleAnomalyMessage [Json.null, Json.null, Json.null]
        ⟨"anomaly_detected", Json.num 7⟩ =
      Json.num 7 :: [Json.null, Json.null, Json.null] ∧
    (handleAnomalyMessage [Json.null, Json.null, Json.null]
        ⟨"anomaly_detected", Json.num 7⟩).length = 4 := by
  have h := anomaly_push_prepend_cap [Json.null, Json.null, Json.null]
    ⟨"anomaly_detected", Json.num 7⟩ rfl
  exact ⟨h.1, by rw [h.1]; rfl⟩

/-- C3.  On a `metrics_update` push, `RealtimeMetrics` replaces its entire
state with `message.data` wholesale: the result does not depend on the
previous state in any way, and no payload shape is rejected — whatever JSON
value `data` holds becomes the displayed state. -/
theorem metrics_push_wholesale (st : Json) (m : PushMessage)
    (hty : m.type = "metrics_update") :
    handleMetricsMessage st m = m.data := by
  unfold handleMetricsMessage
  rw [if_pos hty]

/-- Witness for C3: a malformed (non-object) payload replaces the state. -/
theorem metrics_push_wholesale_witness :
    handleMetricsMessage (Json.obj []) ⟨"metrics_update", Json.str "oops"⟩ =
      Json.str "oops" :=
  metrics_push_wholesale (Json.obj []) ⟨"metrics_update", Json.str "oops"⟩ rfl

/-- C8.  A push message whose type is neither `metrics_update` nor
`anomaly_detected` leaves both the metrics state of `RealtimeMetrics` and
the anomalies state of `AnomalyList` unchanged. -/
theorem unknown_push_ignored (stM : Json) (stA : List Json) (m : PushMessage)
    (h₁ : m.type ≠ "metrics_update") (h₂ : m.type ≠ "anomaly_detected") :
    handleMetricsMessage stM m = stM ∧ handleAnomalyMessage stA m = stA := by
  constructor
  · unfold handleMetricsMessage
    rw [if_neg h₁]
  · unfold handleAnomalyMessage
    rw [if_neg h₂]

/-- Witness for C8 at a concrete `device_update` message. -/
theorem unknown_push_ignored_witness :
    handleMetricsMessage (Json.num 3) ⟨"device_update", Json.null⟩ =
        Json.num 3 ∧
    handleAnomalyMessage [Json.num 1] ⟨"device_update", Json.null⟩ =
        [Json.num 1] :=
  unknown_push_ignored (Json.num 3) [Json.num 1] ⟨"device_update", Json.null⟩
    (by decide) (by decide)

/-- C9.  When the `/api/status` snapshot's `performance.accuracy` is absent
or exactly 0, the merge sets `modelAccuracy` to the falsy-coalescing default
0.947; moreover no snapshot whatsoever can make the merged `modelAccuracy`
equal 0, so a true accuracy of 0 is never displayed from the snapshot. -/
theorem accuracy_falsy_default (prev : Metrics) (s : StatusSnapshot)
    (h : s.performanceAccuracy = none ∨ s.performanceAccuracy = some 0) :
    (applySnapshot prev s).modelAccuracy = 947 / 1000 ∧
    ∀ (q : Metrics) (t : StatusSnapshot),
      (applySnapshot q t).modelAccuracy ≠ 0 := by
  constructor
  · rcases h with h | h <;> simp [applySnapshot, jsOrNum, h]
  · intro q t
    cases htx : t.performanceAccuracy with
    | none =>
        simp [applySnapshot, jsOrNum, htx]
    | some x =>
        by_cases hx : x = 0
        · simp [applySnapshot, jsOrNum, htx, hx]
        · simp [applySnapshot, jsOrNum, htx, hx]

/-- A concrete snapshot reporting accuracy exactly 0. -/
def zeroAccuracySnapshot : StatusSnapshot :=
  { devicesTotal := some 12
    devicesOnline := some 9
    performanceAccuracy := some 0
    securityRecentAnomalies := some 2
    securityPrivacyBudgetRemaining := some (7 / 2)
    flCurrentRound := some 3 }

/-- The initial `Metrics` state of `RealtimeMetrics` (`useState` literal). -/
def initialMetricsState : Metrics :=
  { activeAnomalies := 0
    flProgress := 0
    privacyBudget := 6
    modelAccuracy := 0
    totalClients := 0
    onlineClients := 0 }

/-- Witness for C9: a snapshot carrying `accuracy: 0` displays 94.7%. -/
theorem accuracy_falsy_default_witness :
    (applySnapshot initialMetricsState zeroAccuracySnapshot).modelAccuracy =
      947 / 1000 :=
  (accuracy_falsy_default initialMetricsState zeroAccuracySnapshot
    (Or.inr rfl)).1

/-- C4.  The budget card is a function of the first fetched entry alone,
against the hardcoded ceiling 6.0: with a first entry `m` the percentage is
`Math.round(m.remainingBudget / 6.0 * 100)` and the card shows
`m.remainingBudget` over 6.0 with `m.delta`; with no resolved fetch or an
empty list it shows exactly the placeholder 70%, 4.2 / 6.0, δ = 1e-5. -/
theorem privacy_budget_display :
    (∀ (m : PrivacyMetrics) (rest : List PrivacyMetrics),
        privacyDisplay (some (m :: rest)) =
          { percentage := jsRound (m.remainingBudget / 6 * 100)
            shownBudget := m.remainingBudget
            shownCeiling := 6
            shownDelta := m.delta }) ∧
    privacyDisplay none =
      { percentage := 70
        shownBudget := 42 / 10
        shownCeiling := 6
        shownDelta := 1 / 100000 } ∧
    privacyDisplay (some []) =
      { percentage := 70
        shownBudget := 42 / 10
        shownCeiling := 6
        shownDelta := 1 / 100000 } :=
  ⟨fun _ _ => rfl, rfl, rfl⟩

/-- C5.  `onDrop` never calls `uploadFile` on a file over 50MB or with a
MIME type outside the 8-entry allow-list, raising a destructive toast
instead; a file within both limits is uploaded. -/
theorem drop_validation (f : JsFile) :
    ((fileSizeLimit < f.size ∨ f.type ∉ allowedTypes) →
      (∀ g : JsFile, handleDroppedFile f ≠ DropOutcome.upload g) ∧
      isDestructiveToast (handleDroppedFile f) = true) ∧
    (f.size ≤ fileSizeLimit → f.type ∈ allowedTypes →
      handleDroppedFile f = DropOutcome.upload f) := by
  constructor
  · intro hrej
    by_cases hs : fileSizeLimit < f.size
    · exact ⟨fun g => by simp [handleDroppedFile, hs],
        by simp [handleDroppedFile, hs, isDestructiveToast]⟩
    · have ht : f.type ∉ allowedTypes := hrej.resolve_left hs
      exact ⟨fun g => by simp [handleDroppedFile, hs, ht],
        by simp [handleDroppedFile, hs, ht, isDestructiveToast]⟩
  · intro hsize htype
    have hs : ¬fileSizeLimit < f.size := not_lt.mpr hsize
    simp [handleDroppedFile, hs, htype]

/-- Witness for C5: a small PNG is uploaded; an oversize PNG and a PDF are
rejected with destructive toasts. -/
theorem drop_validation_witness :
    handleDroppedFile ⟨"cam.png", 1000, "image/png"⟩ =
        DropOutcome.upload ⟨"cam.png", 1000, "image/png"⟩ ∧
    isDestructiveToast
        (handleDroppedFile ⟨"huge.png", 52428801, "image/png"⟩) = true ∧
    isDestructiveToast
        (handleDroppedFile ⟨"doc.pdf", 1000, "application/pdf"⟩) = true :=
  ⟨(drop_validation ⟨"cam.png", 1000, "image/png"⟩).2 (by decide) (by decide),
   ((drop_validation ⟨"huge.png", 52428801, "image/png"⟩).1
      (Or.inl (by decide))).2,
   ((drop_validation ⟨"doc.pdf", 1000, "application/pdf"⟩).1
      (Or.inr (by decide))).2⟩

/-- C7.  Every overlay box is placed at `left = x1 * (512/640)`,
`top = y1 * (256/480)` with `width = (x2 - x1) * (512/640)` and
`height = (y2 - y1) * (256/480)`: the scale factors are the fixed constants
`512/640` and `256/480` of an assumed 640×480 source frame, and the
geometry depends on nothing but the box coordinates — in particular not on
the actual dimensions of the uploaded image, which `overlayRect` never
receives. -/
theorem overlay_fixed_frame_scaling (c : String) (conf : ℚ)
    (x1 y1 x2 y2 : ℚ) (ia : Bool) (p : String) :
    overlayRect ⟨c, conf, (x1, y1, x2, y2), ia, p⟩ =
      { left := x1 * (512 / 640)
        top := y1 * (256 / 480)
        width := (x2 - x1) * (512 / 640)
        height := (y2 - y1) * (256 / 480) } ∧
    scaleX = 512 / 640 ∧ scaleY = 256 / 480 :=
  ⟨rfl, rfl, rfl⟩

/-- C1.  The poll loop for an upload fires every 2000ms and consumes at most
30 fetch outcomes — exactly those whose fire time is within the 60000ms
timeout — so outcomes past the cap never influence the state; and a poll
that finds the record with a status outside `uploaded`/`processing` replaces
the matching `uploadedFiles` entry, clears the interval, and, when the
status is `analyzed` with `analysisResults` present, sets `selectedResult`
to those results. -/
theorem upload_poll_cap_and_update (fid : String) (st : PollState)
    (rs : List FetchOutcome) (files : List UploadedFile) (cf : UploadedFile)
    (hact : st.active = true)
    (hfind : List.find? (fun f => f.id == fid) files = some cf)
    (hnp : cf.status ≠ FileStatus.uploaded ∧
      cf.status ≠ FileStatus.processing) :
    intervalMs = 2000 ∧ timeoutMs = 60000 ∧ maxPolls = 30 ∧
    (∀ k, pollFireTime k ≤ timeoutMs ↔ k < maxPolls) ∧
    pollRun fid st rs = pollRun fid st (rs.take 30) ∧
    (pollStep fid st (FetchOutcome.ok files)).uploadedFiles =
      st.uploadedFiles.map (fun f => if f.id == fid then cf else f) ∧
    (pollStep fid st (FetchOutcome.ok files)).active = false ∧
    (cf.status = FileStatus.analyzed → cf.analysisResults.isSome →
      (pollStep fid st (FetchOutcome.ok files)).selectedResult =
        cf.analysisResults) := by
  refine ⟨rfl, rfl, rfl, ?_, ?_, ?_, ?_, ?_⟩
  · intro k
    show intervalMs * (k + 1) ≤ timeoutMs ↔ k < maxPolls
    simp only [intervalMs, timeoutMs, maxPolls]
    omega
  · show (rs.take maxPolls).foldl (pollStep fid) st =
      ((rs.take 30).take maxPolls).foldl (pollStep fid) st
    have hm : maxPolls = 30 := rfl
    rw [hm, List.take_take]
    norm_num
  · simp [pollStep, hact, hfind, hnp.1, hnp.2]
  · simp [pollStep, hact, hfind, hnp.1, hnp.2]
  · intro ha hsome
    simp [pollStep, hact, hfind, hnp.1, hnp.2, ha, hsome]

/-- Witness for C1: the first poll that reports `"f1"` as `analyzed` with
results replaces the record and selects the results. -/
theorem upload_poll_cap_and_update_witness :
    (pollStep "f1" sampleState
        (FetchOutcome.ok [sampleAnalyzed])).uploadedFiles =
      [sampleAnalyzed] ∧
    (pollStep "f1" sampleState
        (FetchOutcome.ok [sampleAnalyzed])).selectedResult =
      some sampleResult := by
  have h := upload_poll_cap_and_update "f1" sampleState []
    [sampleAnalyzed] sampleAnalyzed rfl (by rfl)
    ⟨by simp [sampleAnalyzed, sampleUploaded], by simp [sampleAnalyzed, sampleUploaded]⟩
  constructor
  · rw [h.2.2.2.2.2.1]
    rfl
  · rw [h.2.2.2.2.2.2.2 (by rfl) (by rfl)]
    rfl

/-- C6.  A rejected `/api/uploads` fetch during polling clears the interval
at once, leaves `uploadedFiles` and `selectedResult` untouched, and no
further iteration of that loop has any effect (no retry). -/
theorem poll_fetch_failure_aborts (fid : String) (st : PollState)
    (hact : st.active = true) :
    (pollStep fid st FetchOutcome.failed).uploadedFiles = st.uploadedFiles ∧
    (pollStep fid st FetchOutcome.failed).selectedResult =
      st.selectedResult ∧
    (pollStep fid st FetchOutcome.failed).active = false ∧
    ∀ rs : List FetchOutcome,
      rs.foldl (pollStep fid) (pollStep fid st FetchOutcome.failed) =
        pollStep fid st FetchOutcome.failed := by
  have hstep : pollStep fid st FetchOutcome.failed =
      { st with active := false } := by
    simp [pollStep, hact]
  refine ⟨by rw [hstep], by rw [hstep], by rw [hstep], ?_⟩
  intro rs
  exact foldl_pollStep_inactive fid _ rs (by rw [hstep])

/-- Witness for C6 at the sample poll state. -/
theorem poll_fetch_failure_aborts_witness :
    (pollStep "f1" sampleState FetchOutcome.failed).uploadedFiles =
        sampleState.uploadedFiles ∧
    (pollStep "f1" sampleState FetchOutcome.failed).selectedResult =
        sampleState.selectedResult ∧
    (pollStep "f1" sampleState FetchOutcome.failed).active = false :=
  ⟨(poll_fetch_failure_aborts "f1" sampleState rfl).1,
   (poll_fetch_failure_aborts "f1" sampleState rfl).2.1,
   (poll_fetch_failure_aborts "f1" sampleState rfl).2.2.1⟩

/-- C10.  A poll that finds the record still `uploaded` or `processing`
changes nothing at all — the UI keeps the status from the original upload
response — and over any whole run the `uploadedFiles` state is rewritten at
most once: as soon as a fold prefix has changed `uploadedFiles`, every
outcome after that prefix is inert. -/
theorem pending_poll_frame (fid : String) (st : PollState)
    (files : List UploadedFile) (cf : UploadedFile)
    (hfind : List.find? (fun f => f.id == fid) files = some cf)
    (hp : cf.status = FileStatus.uploaded ∨
      cf.status = FileStatus.processing) :
    pollStep fid st (FetchOutcome.ok files) = st ∧
    ∀ (st0 : PollState) (l1 l2 : List FetchOutcome),
      (l1.foldl (pollStep fid) st0).uploadedFiles ≠ st0.uploadedFiles →
      (l1 ++ l2).foldl (pollStep fid) st0 = l1.foldl (pollStep fid) st0 := by
  constructor
  · by_cases hact : st.active
    · have hnp : ¬(cf.status ≠ FileStatus.uploaded ∧
          cf.status ≠ FileStatus.processing) := by
        rcases hp with h | h <;> simp [h]
      simp [pollStep, hact, hfind, hnp]
    · exact pollStep_inactive fid st _ (by simpa using hact)
  · intro st0 l1 l2 hch
    rw [List.foldl_append]
    exact foldl_pollStep_inactive fid _ l2
      (foldl_pollStep_change_inactive fid l1 st0 hch)

/-- Witness for C10: a poll reporting `"f1"` still `processing` leaves the
state identical. -/
theorem pending_poll_frame_witness :
    pollStep "f1" sampleState (FetchOutcome.ok [sampleProcessing]) =
      sampleState :=
  (pending_poll_frame "f1" sampleState [sampleProcessing] sampleProcessing
    (by rfl) (Or.inr (by rfl))).1

end Ppfl
